import Mathlib

/-!
Verification development for the power-telemetry collector
(`backend/profiling/power_monitor.py`).

Numeric power values are modelled as rationals (`ℚ`). The subprocess and
its scheduling environment are modelled explicitly: the availability-probe
result, the spawned process handle, and whether the graceful wait during
`stop()` times out are inputs to the embedded operations, and the embedded
operations report the side effects they perform (spawn, terminate, kill,
wait) as data.

`start`, `stop`, `is_running`, `get_samples` and `total_power_w` are
embedded statement-by-statement from `power_monitor.py`. Components the
spec describes but that are absent from that file (the plist stream
decoder, the phase tracker, the peak aggregator, the idle-baseline
measurement) are modelled from the spec; each such definition says so in
its doc comment.
-/

/-- Embedding of the `PowerSample` dataclass of `power_monitor.py`
(timestamp, relative time, four power channels, total). -/
structure PowerSample where
  timestamp : ℚ
  relative_time_ms : ℚ
  cpu_power_mw : ℚ
  gpu_power_mw : ℚ
  ane_power_mw : ℚ
  dram_power_mw : ℚ
  total_power_mw : ℚ
deriving DecidableEq

/-- Embedding of the `total_power_w` property: `self.total_power_mw / 1000.0`. -/
def PowerSample.total_power_w (s : PowerSample) : ℚ :=
  s.total_power_mw / 1000

/-- Handle of a spawned subprocess, together with the environment facts
about it that the Python code could observe: whether `poll()` right after
spawning would report the process as already exited, and its stderr text. -/
structure ProcHandle where
  pid : Nat
  exitedImmediately : Bool
  stderrOutput : String
deriving DecidableEq

/-- Embedding of the mutable fields set up by `PowerMonitor.__init__`. -/
structure MonitorState where
  sample_interval_ms : Nat
  process : Option ProcHandle
  samples : List PowerSample
  start_time : Option ℚ
  running : Bool
deriving DecidableEq

/-- Embedding of `PowerMonitor.__init__(sample_interval_ms)`. -/
def PowerMonitor.mkMonitor (interval : Nat) : MonitorState :=
  { sample_interval_ms := interval
    process := none
    samples := []
    start_time := none
    running := false }

/-- The exceptions `power_monitor.py` raises: `RuntimeError` for a double
start (already running), `PermissionError` when the availability probe
fails, `RuntimeError` for stop/baseline while stopped. -/
inductive MonitorError
  | alreadyRunning
  | notAvailable
  | notRunning
deriving DecidableEq

/-- Environment of a `start()` call: the result the availability probe
would return, the process handle `subprocess.Popen` would produce, and the
current wall-clock time. -/
structure StartEnv where
  available : Bool
  spawned : ProcHandle
  now : ℚ
deriving DecidableEq

/-- Result of a `start()` call: the monitor state when the call returns
(unchanged when an exception propagates), whether a subprocess was
spawned, and the exception raised, if any. -/
structure StartOutcome where
  state : MonitorState
  spawnedProcess : Bool
  error : Option MonitorError
deriving DecidableEq

/-- Embedding of `PowerMonitor.start`, statement by statement:
raise if `self._running`; raise if not `self.is_available()`; spawn the
subprocess; set `_start_time`, `_running = True`, `_samples = []`.
The raise points sit exactly where they sit in the source, so the state
returned with an error is the state as of that raise. -/
def PowerMonitor.start (s : MonitorState) (env : StartEnv) : StartOutcome :=
  if s.running then
    { state := s, spawnedProcess := false, error := some MonitorError.alreadyRunning }
  else if env.available = false then
    { state := s, spawnedProcess := false, error := some MonitorError.notAvailable }
  else
    let s1 := { s with process := some env.spawned }
    let s2 := { s1 with start_time := some env.now }
    let s3 := { s2 with running := true }
    let s4 := { s3 with samples := [] }
    { state := s4, spawnedProcess := true, error := none }

/-- Side effects `stop()` can perform on the subprocess, in order. -/
inductive StopEvent
  | terminate
  | waitGrace
  | kill
  | waitFinal
deriving DecidableEq

/-- Result of a `stop()` call: the state when the call returns, the
subprocess-control calls performed in order, and the exception, if any. -/
structure StopOutcome where
  state : MonitorState
  events : List StopEvent
  error : Option MonitorError
deriving DecidableEq

/-- Embedding of `PowerMonitor.stop`: raise if not running; if a process
handle is held, `terminate()` then `wait(timeout=2)`; if that wait times
out (environment input `gracefulTimesOut`), `kill()` then an unconditional
`wait()`; finally `_running = False`, `_process = None`. -/
def PowerMonitor.stop (s : MonitorState) (gracefulTimesOut : Bool) : StopOutcome :=
  if s.running = false then
    { state := s, events := [], error := some MonitorError.notRunning }
  else
    let events :=
      match s.process with
      | none => []
      | some _ =>
        if gracefulTimesOut then
          [StopEvent.terminate, StopEvent.waitGrace, StopEvent.kill, StopEvent.waitFinal]
        else
          [StopEvent.terminate, StopEvent.waitGrace]
    { state := { s with running := false, process := none }
      events := events
      error := none }

/-- Embedding of `PowerMonitor.is_running`. -/
def PowerMonitor.is_running (s : MonitorState) : Bool :=
  s.running

/-- Embedding of `PowerMonitor.get_samples` as a pure value (the copy
semantics of `self._samples.copy()` is modelled separately on an explicit
heap). -/
def PowerMonitor.get_samples (s : MonitorState) : List PowerSample :=
  s.samples

/-- Per-channel idle-baseline averages, keyed as in the repository's
tests (`baseline_power_mw`, `baseline_cpu_power_mw`, ...,
`baseline_sample_count`). -/
structure IdleBaseline where
  baseline_power_mw : ℚ
  baseline_cpu_power_mw : ℚ
  baseline_gpu_power_mw : ℚ
  baseline_ane_power_mw : ℚ
  baseline_dram_power_mw : ℚ
  baseline_sample_count : Nat
deriving DecidableEq

/-- Modelled from the spec: `measure_idle_baseline` is absent from
`src/backend/profiling/power_monitor.py` (only the tests call it);
modelled from spec §4.6. Precondition: Running, else NotRunningError.
Captures N0 = current store length, blocks while the consumer appends
`appended`, then averages exactly the samples with index ≥ N0; an empty
window yields an all-zero baseline with count 0. -/
def PowerMonitor.measure_idle_baseline (s : MonitorState)
    (appended : List PowerSample) : Option MonitorError × Option IdleBaseline :=
  if s.running = false then
    (some MonitorError.notRunning, none)
  else
    let n0 := s.samples.length
    let finalStore := s.samples ++ appended
    let window := finalStore.drop n0
    if window.length = 0 then
      (none, some { baseline_power_mw := 0
                    baseline_cpu_power_mw := 0
                    baseline_gpu_power_mw := 0
                    baseline_ane_power_mw := 0
                    baseline_dram_power_mw := 0
                    baseline_sample_count := 0 })
    else
      let n : ℚ := window.length
      (none, some { baseline_power_mw := (window.map PowerSample.total_power_mw).sum / n
                    baseline_cpu_power_mw := (window.map PowerSample.cpu_power_mw).sum / n
                    baseline_gpu_power_mw := (window.map PowerSample.gpu_power_mw).sum / n
                    baseline_ane_power_mw := (window.map PowerSample.ane_power_mw).sum / n
                    baseline_dram_power_mw := (window.map PowerSample.dram_power_mw).sum / n
                    baseline_sample_count := window.length })

/-- C10: for every PowerSample `s`, the derived `total_power_w` equals
exactly `total_power_mw / 1000`, whatever the field values. -/
theorem total_power_w_is_total_mw_div_thousand (s : PowerSample) :
    s.total_power_w = s.total_power_mw / 1000 :=
  rfl

/-- Example running state: a monitor that has successfully started and
holds a live process handle. -/
def runningStateEx : MonitorState :=
  { sample_interval_ms := 100
    process := some { pid := 1, exitedImmediately := false, stderrOutput := "" }
    samples := []
    start_time := some 0
    running := true }

/-- Example environment in which the availability probe succeeds. -/
def envOk : StartEnv :=
  { available := true
    spawned := { pid := 2, exitedImmediately := false, stderrOutput := "" }
    now := 1 }

/-- Example environment in which the availability probe reports the
telemetry binary unavailable. -/
def envUnavailable : StartEnv :=
  { available := false
    spawned := { pid := 3, exitedImmediately := false, stderrOutput := "" }
    now := 1 }

/-- C3: lifecycle-contract violations are raised synchronously to the
caller: start while Running raises the already-running error; stop while
Stopped raises the not-running error; start raises the availability error
when the probe reports unavailable; measure_idle_baseline while Stopped
raises the not-running error. -/
theorem lifecycle_errors_raised_synchronously
    (s t : MonitorState) (env envU : StartEnv) (g : Bool)
    (appended : List PowerSample)
    (hs : s.running = true) (ht : t.running = false)
    (hU : envU.available = false) :
    (PowerMonitor.start s env).error = some MonitorError.alreadyRunning
    ∧ (PowerMonitor.stop t g).error = some MonitorError.notRunning
    ∧ (PowerMonitor.start t envU).error = some MonitorError.notAvailable
    ∧ (PowerMonitor.measure_idle_baseline t appended).1
        = some MonitorError.notRunning := by
  refine ⟨?_, ?_, ?_, ?_⟩ <;>
    simp [PowerMonitor.start, PowerMonitor.stop,
      PowerMonitor.measure_idle_baseline, hs, ht, hU]

/-- Witness for C3 at concrete states: a started monitor, a fresh
monitor, and an unavailable probe. -/
theorem lifecycle_errors_raised_synchronously_witness :
    (PowerMonitor.start runningStateEx envOk).error
        = some MonitorError.alreadyRunning
    ∧ (PowerMonitor.stop (PowerMonitor.mkMonitor 100) true).error
        = some MonitorError.notRunning
    ∧ (PowerMonitor.start (PowerMonitor.mkMonitor 100) envUnavailable).error
        = some MonitorError.notAvailable
    ∧ (PowerMonitor.measure_idle_baseline (PowerMonitor.mkMonitor 100) []).1
        = some MonitorError.notRunning :=
  lifecycle_errors_raised_synchronously runningStateEx (PowerMonitor.mkMonitor 100)
    envOk envUnavailable true [] rfl rfl rfl

/-- C4: a stop() in the Running state raises nothing; sends terminate
exactly once; issues kill if and only if the graceful wait times out, and
then only as terminate, graceful wait, kill, unconditional wait in that
order; and leaves the monitor not running with the process handle
released. -/
theorem stop_graceful_once_escalates_iff_timeout
    (s : MonitorState) (p : ProcHandle) (g : Bool)
    (hr : s.running = true) (hp : s.process = some p) :
    (PowerMonitor.stop s g).error = none
    ∧ (PowerMonitor.stop s g).events.count StopEvent.terminate = 1
    ∧ (StopEvent.kill ∈ (PowerMonitor.stop s g).events ↔ g = true)
    ∧ (g = true → (PowerMonitor.stop s g).events
        = [StopEvent.terminate, StopEvent.waitGrace,
           StopEvent.kill, StopEvent.waitFinal])
    ∧ (g = false → (PowerMonitor.stop s g).events
        = [StopEvent.terminate, StopEvent.waitGrace])
    ∧ PowerMonitor.is_running (PowerMonitor.stop s g).state = false
    ∧ (PowerMonitor.stop s g).state.process = none := by
  cases g <;>
    simp [PowerMonitor.stop, PowerMonitor.is_running, hr, hp]

/-- Witness for C4 at a concrete running monitor, in the environment
where the graceful wait times out. -/
theorem stop_graceful_once_escalates_iff_timeout_witness :
    (PowerMonitor.stop runningStateEx true).error = none
    ∧ (PowerMonitor.stop runningStateEx true).events.count StopEvent.terminate = 1
    ∧ (StopEvent.kill ∈ (PowerMonitor.stop runningStateEx true).events ↔ true = true)
    ∧ (true = true → (PowerMonitor.stop runningStateEx true).events
        = [StopEvent.terminate, StopEvent.waitGrace,
           StopEvent.kill, StopEvent.waitFinal])
    ∧ (true = false → (PowerMonitor.stop runningStateEx true).events
        = [StopEvent.terminate, StopEvent.waitGrace])
    ∧ PowerMonitor.is_running (PowerMonitor.stop runningStateEx true).state = false
    ∧ (PowerMonitor.stop runningStateEx true).state.process = none :=
  stop_graceful_once_escalates_iff_timeout runningStateEx
    { pid := 1, exitedImmediately := false, stderrOutput := "" } true rfl rfl

/-- C9: every failed start — already Running or probe unavailable —
returns with the monitor state exactly as before the call and without
having spawned a subprocess. -/
theorem failed_start_is_atomic (s : MonitorState) (env : StartEnv)
    (e : MonitorError) (h : (PowerMonitor.start s env).error = some e) :
    (PowerMonitor.start s env).state = s
    ∧ (PowerMonitor.start s env).spawnedProcess = false := by
  cases hrun : s.running <;> cases hav : env.available <;>
    simp [PowerMonitor.start, hrun, hav] at h ⊢

/-- Witness for C9: a start attempted on an already-running monitor. -/
theorem failed_start_is_atomic_witness :
    (PowerMonitor.start runningStateEx envOk).state = runningStateEx
    ∧ (PowerMonitor.start runningStateEx envOk).spawnedProcess = false :=
  failed_start_is_atomic runningStateEx envOk MonitorError.alreadyRunning rfl

/-- Concrete failing input for C2: an environment in which the spawned
process has already exited (with diagnostic output on stderr) by the time
start() returns from Popen. -/
def immediateExitProc : ProcHandle :=
  { pid := 42, exitedImmediately := true, stderrOutput := "Permission denied" }

/-- Start environment wrapping `immediateExitProc`; the probe succeeds. -/
def immediateExitEnv : StartEnv :=
  { available := true, spawned := immediateExitProc, now := 0 }

/-- C2 (code bug): the source start() never polls the spawned process, so
even when the subprocess has already exited, start() raises nothing,
transitions to Running, and keeps the dead handle — contradicting the
spec and the repository's own test, which require an immediate-exit
error with the monitor left Stopped. -/
theorem start_ignores_immediate_exit :
    immediateExitEnv.spawned.exitedImmediately = true
    ∧ (PowerMonitor.start (PowerMonitor.mkMonitor 100) immediateExitEnv).error = none
    ∧ PowerMonitor.is_running
        (PowerMonitor.start (PowerMonitor.mkMonitor 100) immediateExitEnv).state = true
    ∧ (PowerMonitor.start (PowerMonitor.mkMonitor 100) immediateExitEnv).state.process
        = some immediateExitProc :=
  ⟨rfl, rfl, rfl, rfl⟩

/-- Baseline computed directly over a window of samples: the arithmetic
mean of the total and of each channel, with count the window's length;
all-zero with count 0 when the window is empty. -/
def baselineOf (w : List PowerSample) : IdleBaseline :=
  if w.length = 0 then
    { baseline_power_mw := 0
      baseline_cpu_power_mw := 0
      baseline_gpu_power_mw := 0
      baseline_ane_power_mw := 0
      baseline_dram_power_mw := 0
      baseline_sample_count := 0 }
  else
    let n : ℚ := w.length
    { baseline_power_mw := (w.map PowerSample.total_power_mw).sum / n
      baseline_cpu_power_mw := (w.map PowerSample.cpu_power_mw).sum / n
      baseline_gpu_power_mw := (w.map PowerSample.gpu_power_mw).sum / n
      baseline_ane_power_mw := (w.map PowerSample.ane_power_mw).sum / n
      baseline_dram_power_mw := (w.map PowerSample.dram_power_mw).sum / n
      baseline_sample_count := w.length }

/-- C7: measure_idle_baseline on a Running monitor raises nothing and
returns exactly the baseline of the delta window — the samples appended
during the call, regardless of how many samples the store held before —
with count the window length, each field the arithmetic mean over that
window alone when it is nonempty, and the all-zero baseline with count 0
when it is empty. -/
theorem measure_idle_baseline_means_delta_window
    (s : MonitorState) (appended : List PowerSample)
    (hr : s.running = true) :
    PowerMonitor.measure_idle_baseline s appended = (none, some (baselineOf appended))
    ∧ (baselineOf appended).baseline_sample_count = appended.length
    ∧ (appended.length ≠ 0 →
        (baselineOf appended).baseline_power_mw
          = (appended.map PowerSample.total_power_mw).sum / appended.length
        ∧ (baselineOf appended).baseline_cpu_power_mw
          = (appended.map PowerSample.cpu_power_mw).sum / appended.length
        ∧ (baselineOf appended).baseline_gpu_power_mw
          = (appended.map PowerSample.gpu_power_mw).sum / appended.length
        ∧ (baselineOf appended).baseline_ane_power_mw
          = (appended.map PowerSample.ane_power_mw).sum / appended.length
        ∧ (baselineOf appended).baseline_dram_power_mw
          = (appended.map PowerSample.dram_power_mw).sum / appended.length)
    ∧ (appended.length = 0 →
        baselineOf appended
          = { baseline_power_mw := 0
              baseline_cpu_power_mw := 0
              baseline_gpu_power_mw := 0
              baseline_ane_power_mw := 0
              baseline_dram_power_mw := 0
              baseline_sample_count := 0 }) := by
  refine ⟨?_, ?_, ?_, ?_⟩
  · unfold PowerMonitor.measure_idle_baseline baselineOf
    by_cases hnil : appended = [] <;> simp [hr, List.drop_left, hnil]
  · unfold baselineOf
    by_cases hlen : appended.length = 0 <;> simp [hlen]
  · intro hlen
    unfold baselineOf
    simp [hlen]
  · intro hlen
    unfold baselineOf
    simp [hlen]

/-- Sample constructor used by concrete examples: a sample whose four
channels sum to its total. -/
def mkSample (t cpu gpu ane dram : ℚ) : PowerSample :=
  { timestamp := t
    relative_time_ms := t * 1000
    cpu_power_mw := cpu
    gpu_power_mw := gpu
    ane_power_mw := ane
    dram_power_mw := dram
    total_power_mw := cpu + gpu + ane + dram }

/-- Running monitor that already holds two samples before the baseline
window opens. -/
def baselineRunState : MonitorState :=
  { sample_interval_ms := 100
    process := some { pid := 1, exitedImmediately := false, stderrOutput := "" }
    samples := [mkSample 0 1000 2000 500 300, mkSample 1 1010 2010 500 300]
    start_time := some 0
    running := true }

/-- The five samples appended during the baseline window; their totals are
3800, 3900, 4000, 4100, 4200, with mean 4000. -/
def fiveIdleSamples : List PowerSample :=
  [mkSample 2 1000 2000 500 300,
   mkSample 3 1100 2000 500 300,
   mkSample 4 1200 2000 500 300,
   mkSample 5 1300 2000 500 300,
   mkSample 6 1400 2000 500 300]

/-- Witness for C7: a run whose window holds exactly 5 samples yields
count 5 and mean total 4000, ignoring the 2 samples already stored. -/
theorem measure_idle_baseline_means_delta_window_witness :
    baselineRunState.running = true
    ∧ PowerMonitor.measure_idle_baseline baselineRunState fiveIdleSamples
        = (none, some (baselineOf fiveIdleSamples))
    ∧ (baselineOf fiveIdleSamples).baseline_sample_count = 5
    ∧ (baselineOf fiveIdleSamples).baseline_power_mw = 4000 :=
  ⟨rfl,
   (measure_idle_baseline_means_delta_window baselineRunState fiveIdleSamples rfl).1,
   by norm_num [baselineOf, fiveIdleSamples, mkSample],
   by norm_num [baselineOf, fiveIdleSamples, mkSample, PowerSample.total_power_mw]⟩

/-- Modelled from the spec: the processor container of a raw telemetry
record (spec §4.3 and the plist layout exercised by the tests) — per
cluster an optional `cpu_power` entry, and optional single `gpu_power`
and ANE `power` values. -/
structure ProcessorBlock where
  clusters : List (Option ℚ)
  gpu_power : Option ℚ
  ane_power : Option ℚ
deriving DecidableEq

/-- Modelled from the spec: one raw telemetry record — an optional
processor container, optional thermal channel entries (each an optional
`power` value), and an independently reported grand total the source
might include. -/
structure RawRecord where
  processor : Option ProcessorBlock
  thermal_channels : Option (List (Option ℚ))
  reported_total : Option ℚ
deriving DecidableEq

/-- Modelled from the spec: the decoded sample including the `phase` tag
of spec §3 (the `PowerSample.phase` field is absent from the src
dataclass; the tests construct samples with it). -/
structure PhasedSample where
  timestamp : ℚ
  relative_time_ms : ℚ
  cpu_power_mw : ℚ
  gpu_power_mw : ℚ
  ane_power_mw : ℚ
  dram_power_mw : ℚ
  total_power_mw : ℚ
  phase : String
deriving DecidableEq

/-- Modelled from the spec: the Stream Decoder `_parse_plist_sample` is
absent from `src/backend/profiling/power_monitor.py` (only the tests call
it); modelled from spec §4.3. CPU power is the sum of the reported
cluster entries (0 if none); GPU and ANE are single reported values (0 if
absent); DRAM is the sum of the reported thermal channel entries (0 if
none); `total_power_mw` is computed as the sum of the four extracted
values, never taken from a reported total; `relative_time_ms` is
(sample time − start time) × 1000; the Phase Tracker's current value is
snapshotted; a record missing the processor container decodes to no
sample. -/
def parse_plist_sample (phase : String) (start_time now : ℚ)
    (r : RawRecord) : Option PhasedSample :=
  match r.processor with
  | none => none
  | some p =>
    let cpu := (p.clusters.filterMap id).sum
    let gpu := p.gpu_power.getD 0
    let ane := p.ane_power.getD 0
    let dram := ((r.thermal_channels.getD []).filterMap id).sum
    some { timestamp := now
           relative_time_ms := (now - start_time) * 1000
           cpu_power_mw := cpu
           gpu_power_mw := gpu
           ane_power_mw := ane
           dram_power_mw := dram
           total_power_mw := cpu + gpu + ane + dram
           phase := phase }

/-- C1: every decoded sample's total is exactly the sum of its four
channel fields; the decode result is independent of any reported grand
total the record carries; and each channel resolves to 0 when absent from
the record. -/
theorem decoded_total_is_sum_of_channels
    (ph : String) (t0 t : ℚ) (r : RawRecord) (s : PhasedSample)
    (h : parse_plist_sample ph t0 t r = some s) :
    s.total_power_mw
      = s.cpu_power_mw + s.gpu_power_mw + s.ane_power_mw + s.dram_power_mw
    ∧ (∀ x, parse_plist_sample ph t0 t
          { r with reported_total := x } = parse_plist_sample ph t0 t r)
    ∧ (∀ p, r.processor = some p → p.gpu_power = none → s.gpu_power_mw = 0)
    ∧ (∀ p, r.processor = some p → p.ane_power = none → s.ane_power_mw = 0)
    ∧ (r.thermal_channels = none → s.dram_power_mw = 0)
    ∧ (∀ p, r.processor = some p → p.clusters = [] → s.cpu_power_mw = 0) := by
  cases hp : r.processor with
  | none => simp [parse_plist_sample, hp] at h
  | some p =>
    simp only [parse_plist_sample, hp] at h
    cases h
    refine ⟨rfl, ?_, ?_, ?_, ?_, ?_⟩
    · intro x
      simp [parse_plist_sample, hp]
    · intro q hq hg
      cases hq
      simp [hg]
    · intro q hq ha
      cases hq
      simp [ha]
    · intro hth
      simp [hth]
    · intro q hq hc
      cases hq
      simp [hc]

/-- Concrete record for C1's example: a single cluster reporting
1000.0 mW of CPU power and nothing else. -/
def cpuOnlyRecord : RawRecord :=
  { processor := some { clusters := [some 1000], gpu_power := none, ane_power := none }
    thermal_channels := none
    reported_total := none }

/-- The sample `cpuOnlyRecord` decodes to (phase idle, start time 0,
sample time 1). -/
def cpuOnlyDecoded : PhasedSample :=
  { timestamp := 1
    relative_time_ms := 1000
    cpu_power_mw := 1000
    gpu_power_mw := 0
    ane_power_mw := 0
    dram_power_mw := 0
    total_power_mw := 1000
    phase := "idle" }

/-- Witness for C1: the CPU-only record decodes to gpu = ane = dram = 0
and total = 1000. -/
theorem decoded_total_is_sum_of_channels_witness :
    parse_plist_sample "idle" 0 1 cpuOnlyRecord = some cpuOnlyDecoded
    ∧ cpuOnlyDecoded.total_power_mw
        = cpuOnlyDecoded.cpu_power_mw + cpuOnlyDecoded.gpu_power_mw
          + cpuOnlyDecoded.ane_power_mw + cpuOnlyDecoded.dram_power_mw
    ∧ cpuOnlyDecoded.gpu_power_mw = 0
    ∧ cpuOnlyDecoded.ane_power_mw = 0
    ∧ cpuOnlyDecoded.dram_power_mw = 0
    ∧ cpuOnlyDecoded.total_power_mw = 1000 :=
  have hdec : parse_plist_sample "idle" 0 1 cpuOnlyRecord = some cpuOnlyDecoded := by
    simp [parse_plist_sample, cpuOnlyRecord, cpuOnlyDecoded]
  have h := decoded_total_is_sum_of_channels "idle" 0 1 cpuOnlyRecord cpuOnlyDecoded hdec
  ⟨hdec, h.1, by simp [cpuOnlyDecoded], by simp [cpuOnlyDecoded],
   by simp [cpuOnlyDecoded], by simp [cpuOnlyDecoded]⟩

/-- Modelled from the spec: the closed phase set validated by
`set_phase` (spec §3 and §4.4). -/
def valid_phases : List String :=
  ["idle", "pre_inference", "prefill", "decode", "post_inference"]

/-- Modelled from the spec: the Phase Tracker's initial value. -/
def initial_phase : String := "idle"

/-- The error `set_phase` raises on an unrecognized phase name
(`ValueError` in the tests, InvalidPhaseError in the spec). -/
inductive PhaseError
  | invalidPhase
deriving DecidableEq

/-- Modelled from the spec: the Phase Tracker's `set_phase` is absent
from `src/backend/profiling/power_monitor.py` (only the tests call it);
modelled from spec §4.4. Validates the name against the closed phase set;
on an unrecognized value raises InvalidPhaseError and leaves the current
phase unchanged. Returns the phase after the call and the error, if
any. -/
def set_phase (cur p : String) : String × Option PhaseError :=
  if p ∈ valid_phases then (p, none)
  else (cur, some PhaseError.invalidPhase)

/-- Modelled from the spec: `get_phase` returns the current value. -/
def get_phase (cur : String) : String := cur

/-- C6: set_phase of a value outside the closed phase set fails with
InvalidPhaseError and leaves the phase unchanged; set_phase of a member
succeeds and a subsequent get_phase returns it; the phase defaults to
idle. -/
theorem set_phase_validates_closed_set (cur p q : String)
    (hp : p ∉ valid_phases) (hq : q ∈ valid_phases) :
    set_phase cur p = (cur, some PhaseError.invalidPhase)
    ∧ get_phase (set_phase cur p).1 = get_phase cur
    ∧ set_phase cur q = (q, none)
    ∧ get_phase (set_phase cur q).1 = q
    ∧ initial_phase = "idle" := by
  refine ⟨?_, ?_, ?_, ?_, rfl⟩ <;> simp [set_phase, get_phase, hp, hq]

/-- Witness for C6: setting the unrecognized name invalid_phase fails and
keeps the idle default; setting prefill succeeds. -/
theorem set_phase_validates_closed_set_witness :
    set_phase initial_phase "invalid_phase"
      = (initial_phase, some PhaseError.invalidPhase)
    ∧ get_phase (set_phase initial_phase "invalid_phase").1 = get_phase initial_phase
    ∧ set_phase initial_phase "prefill" = ("prefill", none)
    ∧ get_phase (set_phase initial_phase "prefill").1 = "prefill"
    ∧ initial_phase = "idle" :=
  set_phase_validates_closed_set initial_phase "invalid_phase" "prefill"
    (by decide) (by decide)

/-- Modelled from the spec: the PeakAggregator's running per-channel
maxima, keyed as in the tests' `get_peak_power` result. -/
structure PeakPower where
  peak_power_mw : ℚ
  peak_power_cpu_mw : ℚ
  peak_power_gpu_mw : ℚ
  peak_power_ane_mw : ℚ
  peak_power_dram_mw : ℚ
deriving DecidableEq

/-- Modelled from the spec: peaks start at zero. -/
def PeakPower.init : PeakPower :=
  { peak_power_mw := 0
    peak_power_cpu_mw := 0
    peak_power_gpu_mw := 0
    peak_power_ane_mw := 0
    peak_power_dram_mw := 0 }

/-- Modelled from the spec: the peak aggregator and `get_peak_power` are
absent from `src/backend/profiling/power_monitor.py` (only the tests use
them); modelled from spec §4.5 — each channel updated independently,
peak_x = max(peak_x, sample.x). -/
def PeakPower.update (pk : PeakPower) (s : PhasedSample) : PeakPower :=
  { peak_power_mw := max pk.peak_power_mw s.total_power_mw
    peak_power_cpu_mw := max pk.peak_power_cpu_mw s.cpu_power_mw
    peak_power_gpu_mw := max pk.peak_power_gpu_mw s.gpu_power_mw
    peak_power_ane_mw := max pk.peak_power_ane_mw s.ane_power_mw
    peak_power_dram_mw := max pk.peak_power_dram_mw s.dram_power_mw }

/-- Modelled from the spec: the Sample Store with its derived Peak
Aggregator (spec §3 and §4.5). -/
structure SampleStore where
  samples : List PhasedSample
  peaks : PeakPower
deriving DecidableEq

/-- The store as reset at each successful start: no samples, zero peaks. -/
def SampleStore.empty : SampleStore :=
  { samples := [], peaks := PeakPower.init }

/-- Modelled from the spec: an append adds the sample to the timeline and
updates the peaks in the same critical section. -/
def SampleStore.append (st : SampleStore) (s : PhasedSample) : SampleStore :=
  { samples := st.samples ++ [s], peaks := st.peaks.update s }

/-- Modelled from the spec: a successful start resets Sample Store and
PeakAggregator to empty/zero (spec §4.1). -/
def SampleStore.resetOnStart (_st : SampleStore) : SampleStore :=
  SampleStore.empty

/-- C5: each peak channel is tracked independently as a running max per
append; after one (nonnegative) sample the peaks equal that sample's
channels exactly; after a second sample with higher CPU but lower GPU the
peak CPU comes from the second sample while the peak GPU still comes from
the first; and a successful start resets peaks together with the store. -/
theorem peaks_track_channels_independently
    (s1 s2 : PhasedSample)
    (h1t : 0 ≤ s1.total_power_mw) (h1c : 0 ≤ s1.cpu_power_mw)
    (h1g : 0 ≤ s1.gpu_power_mw) (h1a : 0 ≤ s1.ane_power_mw)
    (h1d : 0 ≤ s1.dram_power_mw)
    (hcpu : s1.cpu_power_mw ≤ s2.cpu_power_mw)
    (hgpu : s2.gpu_power_mw ≤ s1.gpu_power_mw) :
    (∀ st : SampleStore,
        (st.append s1).peaks.peak_power_mw
          = max st.peaks.peak_power_mw s1.total_power_mw
        ∧ (st.append s1).peaks.peak_power_cpu_mw
          = max st.peaks.peak_power_cpu_mw s1.cpu_power_mw
        ∧ (st.append s1).peaks.peak_power_gpu_mw
          = max st.peaks.peak_power_gpu_mw s1.gpu_power_mw
        ∧ (st.append s1).peaks.peak_power_ane_mw
          = max st.peaks.peak_power_ane_mw s1.ane_power_mw
        ∧ (st.append s1).peaks.peak_power_dram_mw
          = max st.peaks.peak_power_dram_mw s1.dram_power_mw
        ∧ (st.append s1).samples = st.samples ++ [s1])
    ∧ (SampleStore.empty.append s1).peaks
        = { peak_power_mw := s1.total_power_mw
            peak_power_cpu_mw := s1.cpu_power_mw
            peak_power_gpu_mw := s1.gpu_power_mw
            peak_power_ane_mw := s1.ane_power_mw
            peak_power_dram_mw := s1.dram_power_mw }
    ∧ ((SampleStore.empty.append s1).append s2).peaks.peak_power_cpu_mw
        = s2.cpu_power_mw
    ∧ ((SampleStore.empty.append s1).append s2).peaks.peak_power_gpu_mw
        = s1.gpu_power_mw
    ∧ SampleStore.resetOnStart ((SampleStore.empty.append s1).append s2)
        = SampleStore.empty := by
  refine ⟨?_, ?_, ?_, ?_, rfl⟩
  · intro st
    exact ⟨rfl, rfl, rfl, rfl, rfl, rfl⟩
  · simp [SampleStore.append, SampleStore.empty, PeakPower.update, PeakPower.init,
      max_eq_right h1t, max_eq_right h1c, max_eq_right h1g,
      max_eq_right h1a, max_eq_right h1d]
  · simp [SampleStore.append, SampleStore.empty, PeakPower.update, PeakPower.init,
      max_eq_right h1c, max_eq_right hcpu]
  · simp [SampleStore.append, SampleStore.empty, PeakPower.update, PeakPower.init,
      max_eq_right h1g, max_eq_left hgpu]

/-- First concrete sample for the C5 witness: CPU 1000, GPU 2000. -/
def peakSample1 : PhasedSample :=
  { timestamp := 0
    relative_time_ms := 0
    cpu_power_mw := 1000
    gpu_power_mw := 2000
    ane_power_mw := 500
    dram_power_mw := 300
    total_power_mw := 3800
    phase := "idle" }

/-- Second concrete sample for the C5 witness: higher CPU (1500), lower
GPU (1500). -/
def peakSample2 : PhasedSample :=
  { timestamp := 1
    relative_time_ms := 1000
    cpu_power_mw := 1500
    gpu_power_mw := 1500
    ane_power_mw := 500
    dram_power_mw := 300
    total_power_mw := 3800
    phase := "idle" }

/-- Witness for C5: after sample 1 the peaks equal its channels; after
sample 2 the peak CPU comes from sample 2 and the peak GPU from
sample 1; a start resets the store and peaks. -/
theorem peaks_track_channels_independently_witness :
    (SampleStore.empty.append peakSample1).peaks
      = { peak_power_mw := 3800
          peak_power_cpu_mw := 1000
          peak_power_gpu_mw := 2000
          peak_power_ane_mw := 500
          peak_power_dram_mw := 300 }
    ∧ ((SampleStore.empty.append peakSample1).append peakSample2).peaks.peak_power_cpu_mw
        = 1500
    ∧ ((SampleStore.empty.append peakSample1).append peakSample2).peaks.peak_power_gpu_mw
        = 2000
    ∧ SampleStore.resetOnStart
        ((SampleStore.empty.append peakSample1).append peakSample2)
      = SampleStore.empty :=
  have h := peaks_track_channels_independently peakSample1 peakSample2
    (by norm_num [peakSample1]) (by norm_num [peakSample1])
    (by norm_num [peakSample1]) (by norm_num [peakSample1])
    (by norm_num [peakSample1]) (by norm_num [peakSample1, peakSample2])
    (by norm_num [peakSample1, peakSample2])
  ⟨h.2.1, h.2.2.1, h.2.2.2.1, h.2.2.2.2⟩

/-- Read the contents of the list object at reference r (out-of-range
reads give the empty list). The heap models Python list objects: an index
is an object identity, the entry its elements. -/
def heapRead (h : List (List PowerSample)) (r : Nat) : List PowerSample :=
  h.getD r []

/-- Overwrite the contents of the list object at r — an in-place
mutation of that object, such as appending to a list a caller holds. -/
def heapWrite (h : List (List PowerSample)) (r : Nat) (l : List PowerSample) :
    List (List PowerSample) :=
  h.set r l

/-- Allocate a fresh list object holding l and return its reference. -/
def heapAlloc (h : List (List PowerSample)) (l : List PowerSample) :
    List (List PowerSample) × Nat :=
  (h ++ [l], h.length)

/-- A monitor whose `_samples` field is a reference to a heap object. -/
structure MonitorRef where
  samplesRef : Nat
deriving DecidableEq

/-- Embedding of `get_samples` with its aliasing made explicit:
`return self._samples.copy()` allocates a fresh list object with the same
contents and returns a reference to it, never the internal reference. -/
def get_samples_copy (m : MonitorRef) (h : List (List PowerSample)) :
    List (List PowerSample) × Nat :=
  heapAlloc h (heapRead h m.samplesRef)

/-- Reading the freshly appended cell of a heap yields what was
appended. -/
theorem heapRead_concat_length (h : List (List PowerSample))
    (c : List PowerSample) : heapRead (h ++ [c]) h.length = c := by
  induction h with
  | nil => rfl
  | cons a t ih => exact ih

/-- Appending a cell leaves reads of existing cells unchanged. -/
theorem heapRead_append_lt (h : List (List PowerSample))
    (c : List PowerSample) (r : Nat) (hr : r < h.length) :
    heapRead (h ++ [c]) r = heapRead h r := by
  induction h generalizing r with
  | nil => exact absurd hr (Nat.not_lt_zero r)
  | cons a t ih =>
    cases r with
    | zero => rfl
    | succ n => exact ih n (Nat.lt_of_succ_lt_succ hr)

/-- Writing the freshly appended cell replaces only that cell. -/
theorem heapWrite_concat_length (h : List (List PowerSample))
    (c l : List PowerSample) : heapWrite (h ++ [c]) h.length l = h ++ [l] := by
  induction h with
  | nil => rfl
  | cons a t ih =>
    show a :: heapWrite (t ++ [c]) t.length l = a :: (t ++ [l])
    rw [ih]

/-- C8: get_samples returns a snapshot copy — the returned reference is
distinct from the internal one and holds the same sequence; overwriting
the returned object leaves the internal store unchanged; and a subsequent
get_samples still returns the original sequence. -/
theorem get_samples_returns_snapshot_copy
    (m : MonitorRef) (h : List (List PowerSample)) (l : List PowerSample)
    (hv : m.samplesRef < h.length) :
    (get_samples_copy m h).2 ≠ m.samplesRef
    ∧ heapRead (get_samples_copy m h).1 (get_samples_copy m h).2
        = heapRead h m.samplesRef
    ∧ heapRead
        (heapWrite (get_samples_copy m h).1 (get_samples_copy m h).2 l)
        m.samplesRef
      = heapRead h m.samplesRef
    ∧ heapRead
        (get_samples_copy m
          (heapWrite (get_samples_copy m h).1 (get_samples_copy m h).2 l)).1
        (get_samples_copy m
          (heapWrite (get_samples_copy m h).1 (get_samples_copy m h).2 l)).2
      = heapRead h m.samplesRef := by
  have e1 : (get_samples_copy m h).1 = h ++ [heapRead h m.samplesRef] := rfl
  have e2 : (get_samples_copy m h).2 = h.length := rfl
  refine ⟨?_, ?_, ?_, ?_⟩
  · rw [e2]
    exact (Nat.ne_of_lt hv).symm
  · rw [e1, e2]
    exact heapRead_concat_length h _
  · rw [e1, e2, heapWrite_concat_length]
    exact heapRead_append_lt h l m.samplesRef hv
  · rw [e1, e2, heapWrite_concat_length]
    have e3 : heapRead (h ++ [l]) m.samplesRef = heapRead h m.samplesRef :=
      heapRead_append_lt h l m.samplesRef hv
    show heapRead ((h ++ [l]) ++ [heapRead (h ++ [l]) m.samplesRef]) (h ++ [l]).length
        = heapRead h m.samplesRef
    rw [heapRead_concat_length, e3]

/-- A one-object heap holding one collected sample. -/
def heapEx : List (List PowerSample) :=
  [[mkSample 0 1000 2000 500 300]]

/-- Witness for C8 at a concrete heap: monitor object 0, with the
returned copy emptied by the caller. -/
theorem get_samples_returns_snapshot_copy_witness :
    (get_samples_copy { samplesRef := 0 } heapEx).2 ≠ 0
    ∧ heapRead (get_samples_copy { samplesRef := 0 } heapEx).1
        (get_samples_copy { samplesRef := 0 } heapEx).2
      = heapRead heapEx 0
    ∧ heapRead
        (heapWrite (get_samples_copy { samplesRef := 0 } heapEx).1
          (get_samples_copy { samplesRef := 0 } heapEx).2 [])
        0
      = heapRead heapEx 0
    ∧ heapRead
        (get_samples_copy { samplesRef := 0 }
          (heapWrite (get_samples_copy { samplesRef := 0 } heapEx).1
            (get_samples_copy { samplesRef := 0 } heapEx).2 [])).1
        (get_samples_copy { samplesRef := 0 }
          (heapWrite (get_samples_copy { samplesRef := 0 } heapEx).1
            (get_samples_copy { samplesRef := 0 } heapEx).2 [])).2
      = heapRead heapEx 0 :=
  get_samples_returns_snapshot_copy { samplesRef := 0 } heapEx []
    (by decide)
